import Mathlib

/-!
# Verification of the plismun validation pipeline

A shallow embedding of the request-validation code of the plismun
conference-registration application:

* `src/utils/validators/forms.ts` — the domain schemas (`SignupSchema`,
  `DelegateApply`) and the cross-reference refinement
  (`refineDelegateApply`);
* the `validate` middleware (zod-based request validation for body and
  query parts of an HTTP request).

zod schemas are embedded as executable Lean functions from typed raw
inputs to `Except` of a list of issues; the middleware is embedded as a
function from a request to an explicit middleware outcome
(continue / 422 response / thrown exception).
-/

set_option autoImplicit false

namespace Plismun

/-- A value that can appear in the `options` list of a zod issue:
committee ids are numbers, country codes are strings. -/
inductive OptionValue where
  | num (n : Int)
  | str (s : String)
deriving BEq, DecidableEq, Repr

/-- A single zod validation issue, as produced by `ctx.addIssue` or by a
built-in check: a machine-readable code, the offending field path, a
human-readable message and (for enumeration-style issues) the list of
valid options. Issues without options carry `[]`. -/
structure ZodIssue where
  code : String
  path : List String
  message : String
  options : List OptionValue
deriving BEq, DecidableEq, Repr

/-- A zod error is the list of issues collected during one parse. -/
abbrev ZodError := List ZodIssue

/-! ## Reference data (prisma models `Committee`, `CommitteeCountries`) -/

/-- A committee row: identifier, display name, difficulty rating. -/
structure Committee where
  id : Int
  displayname : String
  difficulty : String
deriving BEq, DecidableEq, Repr

/-- A committee-country row: pairs a committee id with an available
country code. -/
structure CommitteeCountries where
  committeeId : Int
  country : String
deriving BEq, DecidableEq, Repr

/-! ## `DelegateApply` (forms.ts lines 59–94): parsed value -/

/-- The parsed (output) type of the `DelegateApply` schema.
`delegationId` is `none` when the submitted id was `-1` or `null`;
`shirtSize` is one of the six shirt sizes or `none`. -/
structure DelegateApply where
  userId : Int
  motivation : String
  experience : String
  delegationId : Option Int
  choice1committee : Int
  choice1country : String
  choice2committee : Int
  choice2country : String
  choice3committee : Int
  choice3country : String
  shirtSize : Option String
deriving BEq, DecidableEq, Repr

/-! ## `refineDelegateApply` (forms.ts lines 98–192)

The refinement receives the reference snapshot (committees and
committee-country rows) and the shape-parsed body, and adds issues to
the context; we embed it as the list of issues it adds, in the order the
source adds them: the three committee-existence checks, then the three
country checks (each country issue only added when that slot's committee
was found). -/

def refineDelegateApply (committees : List Committee)
    (committeeCountries : List CommitteeCountries) (body : DelegateApply) :
    List ZodIssue :=
  let committee1valid := committees.find? (fun c => c.id == body.choice1committee)
  let issues1 :=
    if committee1valid.isNone then
      [⟨"invalid_enum_value", ["choice1committee"],
        "The committee with the given ID was not found",
        committees.map (fun c => OptionValue.num c.id)⟩]
    else []
  let committee2valid := committees.find? (fun c => c.id == body.choice2committee)
  let issues2 :=
    if committee2valid.isNone then
      [⟨"invalid_enum_value", ["choice2committee"],
        "The committee with the given ID was not found",
        committees.map (fun c => OptionValue.num c.id)⟩]
    else []
  let committee3valid := committees.find? (fun c => c.id == body.choice3committee)
  let issues3 :=
    if committee3valid.isNone then
      [⟨"invalid_enum_value", ["choice3committee"],
        "The committee with the given ID was not found",
        committees.map (fun c => OptionValue.num c.id)⟩]
    else []
  -- check if each choice's country is valid in its committee
  let choice1valid := committeeCountries.find? (fun c =>
    c.committeeId == body.choice1committee && c.country == body.choice1country)
  let countryIssues1 :=
    if choice1valid.isNone && committee1valid.isSome then
      [⟨"invalid_enum_value", ["choice1country"],
        "Invalid country and committee combination",
        (committeeCountries.filter (fun c => c.committeeId == body.choice1committee)).map
          (fun c => OptionValue.str c.country)⟩]
    else []
  let choice2valid := committeeCountries.find? (fun c =>
    c.committeeId == body.choice2committee && c.country == body.choice2country)
  let countryIssues2 :=
    if choice2valid.isNone && committee2valid.isSome then
      [⟨"invalid_enum_value", ["choice2country"],
        "Invalid country and committee combination",
        (committeeCountries.filter (fun c => c.committeeId == body.choice2committee)).map
          (fun c => OptionValue.str c.country)⟩]
    else []
  let choice3valid := committeeCountries.find? (fun c =>
    c.committeeId == body.choice3committee && c.country == body.choice3country)
  let countryIssues3 :=
    if choice3valid.isNone && committee3valid.isSome then
      [⟨"invalid_enum_value", ["choice3country"],
        "Invalid country and committee combination",
        (committeeCountries.filter (fun c => c.committeeId == body.choice3committee)).map
          (fun c => OptionValue.str c.country)⟩]
    else []
  issues1 ++ issues2 ++ issues3 ++ countryIssues1 ++ countryIssues2 ++ countryIssues3

/-! Slot-indexed accessors (specification-side helpers used to state
claims uniformly over the three choice slots). -/

/-- The committee id submitted in choice slot `n` (slots are 1, 2, 3). -/
def choiceCommittee : Nat → DelegateApply → Int
  | 1, b => b.choice1committee
  | 2, b => b.choice2committee
  | 3, b => b.choice3committee
  | _, _ => 0

/-- The country submitted in choice slot `n`. -/
def choiceCountry : Nat → DelegateApply → String
  | 1, b => b.choice1country
  | 2, b => b.choice2country
  | 3, b => b.choice3country
  | _, _ => ""

/-- The issue path for slot `n`'s committee field. -/
def committeePath : Nat → List String
  | 1 => ["choice1committee"]
  | 2 => ["choice2committee"]
  | 3 => ["choice3committee"]
  | _ => []

/-- The issue path for slot `n`'s country field. -/
def countryPath : Nat → List String
  | 1 => ["choice1country"]
  | 2 => ["choice2country"]
  | 3 => ["choice3country"]
  | _ => []

/-! ## `DelegateApply` shape parse (forms.ts lines 59–94)

The raw submission, typed as the JSON shapes the schema's field parsers
see (numbers as `Int`, nullable fields as `Option`). zod's per-field
checks run independently and their issues are collected in field order;
a string `min`/`max` failure marks the parse dirty but keeps the value,
while an enum mismatch (`shirtSize`) makes the field parse INVALID,
aborting the object parse so that refinements do not run. -/

structure DelegateApplyInput where
  userId : Int
  motivation : String
  experience : String
  /-- ID of delegation; -1 is taken as no delegation. -/
  delegationId : Option Int
  choice1committee : Int
  choice1country : String
  choice2committee : Int
  choice2country : String
  choice3committee : Int
  choice3country : String
  /-- shirt size or null if no shirt desired -/
  shirtSize : Option String
deriving BEq, DecidableEq, Repr

/-- The `z.enum(["XS", "S", "M", "L", "XL", "XXL"])` option list. -/
def shirtSizes : List String := ["XS", "S", "M", "L", "XL", "XXL"]

/-- Issues of the per-field shape checks of `DelegateApply`, in field
order (motivation: `.max(4000)` then `.min(10)`; likewise experience;
each committee `.min(0)`; each country `.min(2)`; shirt size from the
enumeration or null). `userId` and `delegationId` never fail on typed
input. -/
def delegateShapeIssues (x : DelegateApplyInput) : List ZodIssue :=
  (if x.motivation.length > 4000 then
    [⟨"too_big", ["motivation"], "Your motivation is too long", []⟩] else [])
  ++ (if x.motivation.length < 10 then
    [⟨"too_small", ["motivation"], "Please enter a short motivation", []⟩] else [])
  ++ (if x.experience.length > 4000 then
    [⟨"too_big", ["experience"], "Your experience is too long", []⟩] else [])
  ++ (if x.experience.length < 10 then
    [⟨"too_small", ["experience"], "Please enter a short experience", []⟩] else [])
  ++ (if x.choice1committee < 0 then
    [⟨"too_small", ["choice1committee"], "Please choose a committee", []⟩] else [])
  ++ (if x.choice1country.length < 2 then
    [⟨"too_small", ["choice1country"], "Please choose a country", []⟩] else [])
  ++ (if x.choice2committee < 0 then
    [⟨"too_small", ["choice2committee"], "Please choose a committee", []⟩] else [])
  ++ (if x.choice2country.length < 2 then
    [⟨"too_small", ["choice2country"], "Please choose a country", []⟩] else [])
  ++ (if x.choice3committee < 0 then
    [⟨"too_small", ["choice3committee"], "Please choose a committee", []⟩] else [])
  ++ (if x.choice3country.length < 2 then
    [⟨"too_small", ["choice3country"], "Please choose a country", []⟩] else [])
  ++ (match x.shirtSize with
    | none => []
    | some s =>
      if shirtSizes.contains s then []
      else [⟨"invalid_enum_value", ["shirtSize"], "Invalid enum value",
        shirtSizes.map OptionValue.str⟩])

/-- Whether some field parse of `DelegateApply` was INVALID (aborting
the object parse): on typed input only the `shirtSize` enum can abort;
string/number `min`/`max` failures are dirty, not aborted. -/
def delegateShapeAborted (x : DelegateApplyInput) : Bool :=
  match x.shirtSize with
  | none => false
  | some s => !(shirtSizes.contains s)

/-- The value produced by the shape parse: all fields pass through,
except `delegationId`, whose `z.preprocess` maps a submitted `-1` to
`null`. -/
def normalizeDelegateApply (x : DelegateApplyInput) : DelegateApply :=
  { userId := x.userId
    motivation := x.motivation
    experience := x.experience
    delegationId := if x.delegationId == some (-1) then none else x.delegationId
    choice1committee := x.choice1committee
    choice1country := x.choice1country
    choice2committee := x.choice2committee
    choice2country := x.choice2country
    choice3committee := x.choice3committee
    choice3country := x.choice3country
    shirtSize := x.shirtSize }

/-- The full parse of a delegate application against a reference
snapshot: shape checks, then (unless a field parse aborted) the
`refineDelegateApply` refinement on the shape-parsed value; all issues
are collected into one report, and the normalized value is returned when
there are none. -/
def delegateApplyParse (committees : List Committee)
    (committeeCountries : List CommitteeCountries) (x : DelegateApplyInput) :
    Except ZodError DelegateApply :=
  let shapeIssues := delegateShapeIssues x
  let value := normalizeDelegateApply x
  if delegateShapeAborted x then .error shapeIssues
  else
    let all := shapeIssues ++ refineDelegateApply committees committeeCountries value
    if all.isEmpty then .ok value else .error all

/-! ## `SignupSchema` (forms.ts lines 12–52)

The predicates of the external `validator` library
(`isMobilePhone`, `isISO31661Alpha2`) and zod's built-in email format
check are abstracted as boolean-function parameters; the claims hold for
every instantiation, in particular for the real library predicates. JS
`Date` is modelled by the string the date was constructed from (no claim
inspects date values); `now` stands for the impure
`new Date().toISOString()` used as the birthdate default. -/

/-- A minimal model of a JS `Date`: the string it was constructed from. -/
structure JsDate where
  source : String
deriving BEq, DecidableEq, Repr

/-- The raw birthdate part of a signup submission: a string, an already
constructed `Date`, or absent (the field has a default). -/
inductive BirthdateInput where
  | str (s : String)
  | date (d : JsDate)
  | undef
deriving BEq, DecidableEq, Repr

/-- The raw signup submission, typed as the JSON shapes the field
parsers see. -/
structure SignupInput where
  email : String
  password : String
  passwordConfirm : String
  firstname : String
  lastname : String
  phone : Option String
  birthdate : BirthdateInput
  nationality : String
  schoolname : Option String
  dietary : Option String
  otherInfo : Option String
deriving BEq, DecidableEq, Repr

/-- The parsed (output) type of `SignupSchema`. -/
structure Signup where
  email : String
  password : String
  passwordConfirm : String
  firstname : String
  lastname : String
  phone : Option String
  birthdate : JsDate
  nationality : String
  schoolname : Option String
  dietary : Option String
  otherInfo : Option String
deriving BEq, DecidableEq, Repr

/-- The `DietaryOptions` enumeration. -/
def dietaryOptions : List String :=
  ["None", "Vegetarian", "Vegan", "Other (please specify below)"]

/-- The phone refinement `(phone) => (phone ? isMobilePhone(phone) : true)`:
the mobile-phone format check runs only when the phone value is truthy
(non-null and non-empty). -/
def phoneCheck (isMobilePhone : String → Bool) : Option String → Bool
  | some p => if p != "" then isMobilePhone p else true
  | none => true

/-- Issues of the phone field: the refinement's `"Invalid phone number"`
custom issue when the check fails. -/
def phoneIssues (isMobilePhone : String → Bool) (phone : Option String) :
    List ZodIssue :=
  if phoneCheck isMobilePhone phone then []
  else [⟨"custom", ["phone"], "Invalid phone number", []⟩]

/-- The phone transform `(phone) => phone || null`: a falsy phone (null
or empty string) becomes null. -/
def normalizePhone : Option String → Option String
  | some p => if p != "" then some p else none
  | none => none

/-- The birthdate union parse: a string is passed to `new Date(x)`, an
absent value takes the default `new Date().toISOString()` (the `now`
parameter) and is then passed to `new Date(x)`, and a `Date` value is
accepted by the union's second branch. Never fails on typed input. -/
def parseBirthdate (now : String) : BirthdateInput → JsDate
  | .str s => ⟨s⟩
  | .undef => ⟨now⟩
  | .date d => d

/-- Issues of the per-field shape checks of `SignupSchema`, in field
order. `passwordConfirm`, `birthdate` and `schoolname` never fail on
typed input. -/
def signupShapeIssues (isEmail isMobilePhone isISO31661Alpha2 : String → Bool)
    (x : SignupInput) : List ZodIssue :=
  (if isEmail x.email then []
    else [⟨"invalid_string", ["email"], "Invalid email", []⟩])
  ++ (if x.password.length < 8 then
    [⟨"too_small", ["password"], "Password must be at least 8 characters", []⟩]
    else [])
  ++ (if x.firstname.length < 1 then
    [⟨"too_small", ["firstname"], "Please enter first name", []⟩] else [])
  ++ (if x.lastname.length < 1 then
    [⟨"too_small", ["lastname"], "Please enter last name", []⟩] else [])
  ++ phoneIssues isMobilePhone x.phone
  ++ (if isISO31661Alpha2 x.nationality then []
    else [⟨"custom", ["nationality"], "Invalid input", []⟩])
  ++ (match x.dietary with
    | none => []
    | some d =>
      if dietaryOptions.contains d then []
      else [⟨"invalid_enum_value", ["dietary"], "Invalid enum value",
        dietaryOptions.map OptionValue.str⟩])
  ++ (match x.otherInfo with
    | none => []
    | some s =>
      if s.length > 400 then
        [⟨"too_big", ["otherInfo"],
          "String must contain at most 400 character(s)", []⟩]
      else [])

/-- Whether some field parse of `SignupSchema` was INVALID (aborting the
object parse, so the `superRefine` does not run): on typed input only
the `dietary` enum can abort. -/
def signupShapeAborted (x : SignupInput) : Bool :=
  match x.dietary with
  | none => false
  | some d => !(dietaryOptions.contains d)

/-- The value produced by the shape parse of `SignupSchema`. -/
def normalizeSignup (now : String) (x : SignupInput) : Signup :=
  { email := x.email
    password := x.password
    passwordConfirm := x.passwordConfirm
    firstname := x.firstname
    lastname := x.lastname
    phone := normalizePhone x.phone
    birthdate := parseBirthdate now x.birthdate
    nationality := x.nationality
    schoolname := x.schoolname
    dietary := x.dietary
    otherInfo := x.otherInfo }

/-- The issues of the `superRefine` password-confirmation cross-check. -/
def signupRefineIssues (x : SignupInput) : List ZodIssue :=
  if x.password != x.passwordConfirm then
    [⟨"custom", ["passwordConfirm"], "Passwords do not match", []⟩]
  else []

/-- The full parse of a signup submission: per-field shape checks, then
(unless a field parse aborted) the `superRefine` cross-check, with all
issues collected into one report. -/
def signupParse (isEmail isMobilePhone isISO31661Alpha2 : String → Bool)
    (now : String) (x : SignupInput) : Except ZodError Signup :=
  let shapeIssues := signupShapeIssues isEmail isMobilePhone isISO31661Alpha2 x
  if signupShapeAborted x then .error shapeIssues
  else
    let all := shapeIssues ++ signupRefineIssues x
    if all.isEmpty then .ok (normalizeSignup now x) else .error all

/-! ## The `validate` middleware (middlewares, `validate`)

A zod schema, as the middleware consumes it, is a parse function from
the raw part to either a value or a `ZodError`, together with the flag
of whether the schema contains asynchronous effects (an `async`
refinement function). zod's synchronous `safeParse` cannot evaluate
asynchronous effects: it throws
`Async refinement encountered during synchronous parse operation.
Use .parseAsync instead.` — modelled by an outer `Except String`
(a thrown JS error). -/

/-- A zod schema over raw part type `α` with parsed type `σ`. -/
structure Schema (α : Type) (σ : Type) where
  /-- the parse underlying `safeParseAsync`: issues of every failing
  check, or the parsed value -/
  parse : α → Except ZodError σ
  /-- the inputs on which zod's synchronous parse encounters an
  asynchronous refinement mid-evaluation and throws: constantly false
  for a schema without asynchronous effects; for a schema with an
  `async` refinement, true exactly on the inputs whose inner (shape)
  parse does not abort, because zod skips refinements after an aborted
  inner parse -/
  asyncBlocked : α → Bool

/-- zod's synchronous `safeParse`: throws (outer `.error`) when
evaluation reaches an asynchronous refinement, otherwise returns the
parse outcome. -/
def safeParse {α σ : Type} (s : Schema α σ) (x : α) :
    Except String (Except ZodError σ) :=
  if s.asyncBlocked x then
    .error "Async refinement encountered during synchronous parse operation. Use .parseAsync instead."
  else .ok (s.parse x)

/-- An incoming request, as the middleware sees it: its raw body and raw
query objects. -/
structure Request (β γ : Type) where
  body : β
  query : γ
deriving BEq, DecidableEq, Repr

/-- The JSON object sent with a 422: `{statusCode, message,
description}` where the description lists one `ZodError` per failed
part. -/
structure ErrorResponse where
  statusCode : Nat
  message : String
  description : List ZodError
deriving BEq, DecidableEq, Repr

/-- The outcome of running the middleware on one request: pass control
forward (`next`, carrying the request downstream handlers see), respond
with a status code and error body, or propagate a thrown JS error. -/
inductive MiddlewareResult (β γ : Type) where
  | next (req : Request β γ)
  | response (status : Nat) (body : ErrorResponse)
  | exception (msg : String)
deriving BEq, DecidableEq, Repr

/-- The `validate({ body, query })` middleware: each supplied schema is
`safeParse`d against its part of the request and failures are pushed
onto the `errors` list (body first, then query); if any errors were
collected the middleware responds 422 with message `"Bad Request"` and
the collected errors as description, else it calls `next()`. The parsed
values are not used further: `next` receives the request unchanged. -/
def validate {β β' γ γ' : Type} (bodySchema : Option (Schema β β'))
    (querySchema : Option (Schema γ γ')) (req : Request β γ) :
    MiddlewareResult β γ :=
  let collected : Except String (List ZodError) := do
    let bodyErrors ← match bodySchema with
      | none => pure []
      | some s => do
        let parsed ← safeParse s req.body
        match parsed with
        | .error e => pure [e]
        | .ok _ => pure []
    let queryErrors ← match querySchema with
      | none => pure []
      | some s => do
        let parsed ← safeParse s req.query
        match parsed with
        | .error e => pure [e]
        | .ok _ => pure []
    pure (bodyErrors ++ queryErrors)
  match collected with
  | .error msg => .exception msg
  | .ok errors =>
    if errors.length != 0 then
      .response 422 ⟨422, "Bad Request", errors⟩
    else
      .next req

/-- The error reports a supplied part contributes: one `ZodError` when
its parse fails, nothing when it succeeds or the part is not validated.
(Specification-side helper to state the middleware claims.) -/
def partReport {α σ : Type} (schema : Option (Schema α σ)) (x : α) :
    List ZodError :=
  match schema with
  | none => []
  | some s =>
    match s.parse x with
    | .error e => [e]
    | .ok _ => []

/-- The standalone `delegationId` sub-schema of `DelegateApply`
(forms.ts lines 73–76): `z.preprocess(val === -1 ? null : val,
z.number().nullable())`. A synchronous, always-succeeding, coercing
schema. -/
def delegationIdSchema : Schema (Option Int) (Option Int) :=
  { parse := fun v => .ok (if v == some (-1) then none else v)
    asyncBlocked := fun _ => false }

/-- Modelled from the spec: the body schema the delegate-application
PUT route passes to `validate` (the `DelegateApply` schema with its
asynchronous `refineDelegateApply` refinement attached against a
reference snapshot; the attachment lives in the validators index module,
which is not among the given sources). `refineDelegateApply` is an
`async` function, so the composed schema has asynchronous effects:
synchronous evaluation reaches them on every input whose shape parse
does not abort. -/
def delegateApplyRouteSchema (committees : List Committee)
    (committeeCountries : List CommitteeCountries) :
    Schema DelegateApplyInput DelegateApply :=
  { parse := delegateApplyParse committees committeeCountries
    asyncBlocked := fun x => !delegateShapeAborted x }

/-- The issues of a failed parse (the empty list for a success).
Specification-side helper to state claims about error reports. -/
def parseIssues {σ : Type} : Except ZodError σ → List ZodIssue
  | .error e => e
  | .ok _ => []

/-! ## Helper lemmas -/

theorem filter_ite_single_neg {p : ZodIssue → Bool} {c : Prop} [Decidable c]
    {x : ZodIssue} (hx : p x = false) :
    List.filter p (if c then [x] else []) = [] := by
  split <;> simp [hx]

theorem filter_ite_single_pos {p : ZodIssue → Bool} {c : Prop} [Decidable c]
    {x : ZodIssue} (hx : p x = true) :
    List.filter p (if c then [x] else []) = if c then [x] else [] := by
  split <;> simp [hx]

/-! ## C1 -/

/-- C1: for every `DelegateApply` body and reference snapshot, if the
committee id in a choice slot does not occur in the snapshot's committee
list, the refinement adds to that slot exactly one issue on the
`choiceNcommittee` path, carrying the full list of valid committee ids
as options, and adds no issue on that slot's `choiceNcountry` path —
with no assumption on the submitted country. -/
theorem c1_absent_committee_single_issue (committees : List Committee)
    (committeeCountries : List CommitteeCountries) (body : DelegateApply)
    (n : Nat) (hn : n = 1 ∨ n = 2 ∨ n = 3)
    (habsent : committees.find? (fun c => c.id == choiceCommittee n body) = none) :
    (refineDelegateApply committees committeeCountries body).filter
        (fun i => i.path == committeePath n) =
      [⟨"invalid_enum_value", committeePath n,
        "The committee with the given ID was not found",
        committees.map (fun c => OptionValue.num c.id)⟩] ∧
    (refineDelegateApply committees committeeCountries body).filter
        (fun i => i.path == countryPath n) = [] := by
  rcases hn with rfl | rfl | rfl <;>
    simp only [choiceCommittee, committeePath, countryPath] at habsent ⊢ <;>
    constructor <;>
    simp [refineDelegateApply, habsent, List.filter_append,
      filter_ite_single_neg, filter_ite_single_pos]

/-- C1 witness: committee id 5 is absent from a two-committee snapshot;
slot 1 gets exactly the committee issue with options `[1, 2]` and no
country issue, although country "ZZ" matches no row either. -/
theorem c1_absent_committee_single_issue_witness :
    (refineDelegateApply [⟨1, "GA", "easy"⟩, ⟨2, "SC", "hard"⟩]
        [⟨2, "US"⟩, ⟨2, "FR"⟩]
        { userId := 7, motivation := "I am motivated", experience := "I am experienced",
          delegationId := none, choice1committee := 5, choice1country := "ZZ",
          choice2committee := 2, choice2country := "FR",
          choice3committee := 2, choice3country := "US", shirtSize := none }).filter
        (fun i => i.path == ["choice1committee"]) =
      [⟨"invalid_enum_value", ["choice1committee"],
        "The committee with the given ID was not found",
        [OptionValue.num 1, OptionValue.num 2]⟩] ∧
    (refineDelegateApply [⟨1, "GA", "easy"⟩, ⟨2, "SC", "hard"⟩]
        [⟨2, "US"⟩, ⟨2, "FR"⟩]
        { userId := 7, motivation := "I am motivated", experience := "I am experienced",
          delegationId := none, choice1committee := 5, choice1country := "ZZ",
          choice2committee := 2, choice2country := "FR",
          choice3committee := 2, choice3country := "US", shirtSize := none }).filter
        (fun i => i.path == ["choice1country"]) = [] := by
  simpa [committeePath, countryPath] using
    c1_absent_committee_single_issue [⟨1, "GA", "easy"⟩, ⟨2, "SC", "hard"⟩]
      [⟨2, "US"⟩, ⟨2, "FR"⟩]
      { userId := 7, motivation := "I am motivated", experience := "I am experienced",
        delegationId := none, choice1committee := 5, choice1country := "ZZ",
        choice2committee := 2, choice2country := "FR",
        choice3committee := 2, choice3country := "US", shirtSize := none }
      1 (Or.inl rfl) rfl

/-! ## C5 -/

/-- C5: for every `DelegateApply` body and snapshot, if a choice slot's
committee id exists in the snapshot but the (committee, country) pair
matches no committee-country row, the refinement adds on that slot's
`choiceNcountry` path exactly one issue whose options are exactly the
country codes of the snapshot's committee-country rows scoped to that
committee id. -/
theorem c5_country_mismatch_scoped_options (committees : List Committee)
    (committeeCountries : List CommitteeCountries) (body : DelegateApply)
    (n : Nat) (hn : n = 1 ∨ n = 2 ∨ n = 3)
    (hcom : (committees.find? (fun c => c.id == choiceCommittee n body)).isSome = true)
    (hpair : committeeCountries.find? (fun c =>
      c.committeeId == choiceCommittee n body && c.country == choiceCountry n body) = none) :
    (refineDelegateApply committees committeeCountries body).filter
        (fun i => i.path == countryPath n) =
      [⟨"invalid_enum_value", countryPath n,
        "Invalid country and committee combination",
        (committeeCountries.filter (fun c => c.committeeId == choiceCommittee n body)).map
          (fun c => OptionValue.str c.country)⟩] := by
  rcases hn with rfl | rfl | rfl <;>
    simp only [choiceCommittee, choiceCountry, countryPath] at hcom hpair ⊢ <;>
    simp [refineDelegateApply, hcom, hpair, List.filter_append,
      filter_ite_single_neg, filter_ite_single_pos]

/-! ## C6 -/

/-- C6: the committee-existence check and the dependent country check
are evaluated for all three choice slots independently and aggregated
into the single returned report, with no fail-fast after the first
failing slot: when all three committee ids are absent from the snapshot
the report is exactly the three committee issues, one per slot. -/
theorem c6_all_slots_aggregated (committees : List Committee)
    (committeeCountries : List CommitteeCountries) (body : DelegateApply)
    (h1 : committees.find? (fun c => c.id == body.choice1committee) = none)
    (h2 : committees.find? (fun c => c.id == body.choice2committee) = none)
    (h3 : committees.find? (fun c => c.id == body.choice3committee) = none) :
    refineDelegateApply committees committeeCountries body =
      [⟨"invalid_enum_value", ["choice1committee"],
        "The committee with the given ID was not found",
        committees.map (fun c => OptionValue.num c.id)⟩,
       ⟨"invalid_enum_value", ["choice2committee"],
        "The committee with the given ID was not found",
        committees.map (fun c => OptionValue.num c.id)⟩,
       ⟨"invalid_enum_value", ["choice3committee"],
        "The committee with the given ID was not found",
        committees.map (fun c => OptionValue.num c.id)⟩] := by
  simp [refineDelegateApply, h1, h2, h3]

/-- C5 witness: committee 2 is valid, country "ZZ" is not paired with
it; the choice1country issue lists exactly `["US", "FR"]`. -/
theorem c5_country_mismatch_scoped_options_witness :
    (refineDelegateApply [⟨2, "SC", "hard"⟩] [⟨2, "US"⟩, ⟨2, "FR"⟩, ⟨3, "CZ"⟩]
        { userId := 7, motivation := "I am motivated", experience := "I am experienced",
          delegationId := none, choice1committee := 2, choice1country := "ZZ",
          choice2committee := 2, choice2country := "FR",
          choice3committee := 2, choice3country := "US", shirtSize := none }).filter
        (fun i => i.path == ["choice1country"]) =
      [⟨"invalid_enum_value", ["choice1country"],
        "Invalid country and committee combination",
        [OptionValue.str "US", OptionValue.str "FR"]⟩] := by
  simpa [countryPath] using
    c5_country_mismatch_scoped_options [⟨2, "SC", "hard"⟩]
      [⟨2, "US"⟩, ⟨2, "FR"⟩, ⟨3, "CZ"⟩]
      { userId := 7, motivation := "I am motivated", experience := "I am experienced",
        delegationId := none, choice1committee := 2, choice1country := "ZZ",
        choice2committee := 2, choice2country := "FR",
        choice3committee := 2, choice3country := "US", shirtSize := none }
      1 (Or.inl rfl) rfl rfl

/-- C6 witness: all three committee ids (5, 6, 7) are absent from the
snapshot and the report aggregates one committee issue per slot. -/
theorem c6_all_slots_aggregated_witness :
    refineDelegateApply [⟨1, "GA", "easy"⟩] [⟨1, "CZ"⟩]
        { userId := 7, motivation := "I am motivated", experience := "I am experienced",
          delegationId := none, choice1committee := 5, choice1country := "CZ",
          choice2committee := 6, choice2country := "CZ",
          choice3committee := 7, choice3country := "CZ", shirtSize := none } =
      [⟨"invalid_enum_value", ["choice1committee"],
        "The committee with the given ID was not found", [OptionValue.num 1]⟩,
       ⟨"invalid_enum_value", ["choice2committee"],
        "The committee with the given ID was not found", [OptionValue.num 1]⟩,
       ⟨"invalid_enum_value", ["choice3committee"],
        "The committee with the given ID was not found", [OptionValue.num 1]⟩] := by
  simpa using
    c6_all_slots_aggregated [⟨1, "GA", "easy"⟩] [⟨1, "CZ"⟩]
      { userId := 7, motivation := "I am motivated", experience := "I am experienced",
        delegationId := none, choice1committee := 5, choice1country := "CZ",
        choice2committee := 6, choice2country := "CZ",
        choice3committee := 7, choice3country := "CZ", shirtSize := none }
      rfl rfl rfl

/-! ## C8, C9 -/

/-- A shape report with no issues means no field parse aborted (the
only aborting field, `shirtSize`, would have reported its enum issue). -/
theorem delegateShape_nil_not_aborted (x : DelegateApplyInput)
    (h : delegateShapeIssues x = []) : delegateShapeAborted x = false := by
  unfold delegateShapeIssues at h
  unfold delegateShapeAborted
  cases hs : x.shirtSize with
  | none => rfl
  | some s =>
    rw [hs] at h
    simp only [List.append_eq_nil] at h
    have h2 := h.2
    simp only [hs]
    by_cases hc : shirtSizes.contains s
    · simpa using hc
    · simp [hc] at h2
      simpa using h2

/-- When each slot's committee id is found and each (committee, country)
pair is found, the refinement adds no issues. -/
theorem refine_nil_of_all_found (committees : List Committee)
    (committeeCountries : List CommitteeCountries) (body : DelegateApply)
    (hc1 : (committees.find? (fun c => c.id == body.choice1committee)).isSome = true)
    (hc2 : (committees.find? (fun c => c.id == body.choice2committee)).isSome = true)
    (hc3 : (committees.find? (fun c => c.id == body.choice3committee)).isSome = true)
    (hp1 : (committeeCountries.find? (fun c =>
      c.committeeId == body.choice1committee && c.country == body.choice1country)).isSome = true)
    (hp2 : (committeeCountries.find? (fun c =>
      c.committeeId == body.choice2committee && c.country == body.choice2country)).isSome = true)
    (hp3 : (committeeCountries.find? (fun c =>
      c.committeeId == body.choice3committee && c.country == body.choice3country)).isSome = true) :
    refineDelegateApply committees committeeCountries body = [] := by
  simp [refineDelegateApply, Option.isNone_eq_false_iff, Option.isSome_iff_ne_none] at *
  simp [hc1, hc2, hc3, hp1, hp2, hp3]

/-- C8: for every `DelegateApply` input in which every field satisfies
its shape constraint and every referenced committee id and (committee,
country) pair exists in the snapshot, validation accepts with no errors
and returns the normalized object; in particular a submitted
`delegationId` of -1 is normalized to null in the accepted value. -/
theorem c8_all_valid_accepts_normalized (committees : List Committee)
    (committeeCountries : List CommitteeCountries) (x : DelegateApplyInput)
    (hshape : delegateShapeIssues x = [])
    (hc1 : (committees.find? (fun c => c.id == x.choice1committee)).isSome = true)
    (hc2 : (committees.find? (fun c => c.id == x.choice2committee)).isSome = true)
    (hc3 : (committees.find? (fun c => c.id == x.choice3committee)).isSome = true)
    (hp1 : (committeeCountries.find? (fun c =>
      c.committeeId == x.choice1committee && c.country == x.choice1country)).isSome = true)
    (hp2 : (committeeCountries.find? (fun c =>
      c.committeeId == x.choice2committee && c.country == x.choice2country)).isSome = true)
    (hp3 : (committeeCountries.find? (fun c =>
      c.committeeId == x.choice3committee && c.country == x.choice3country)).isSome = true) :
    delegateApplyParse committees committeeCountries x =
      .ok (normalizeDelegateApply x) ∧
    (x.delegationId = some (-1) → (normalizeDelegateApply x).delegationId = none) := by
  have hab := delegateShape_nil_not_aborted x hshape
  have hrefine := refine_nil_of_all_found committees committeeCountries
    (normalizeDelegateApply x)
    (by simpa [normalizeDelegateApply] using hc1)
    (by simpa [normalizeDelegateApply] using hc2)
    (by simpa [normalizeDelegateApply] using hc3)
    (by simpa [normalizeDelegateApply] using hp1)
    (by simpa [normalizeDelegateApply] using hp2)
    (by simpa [normalizeDelegateApply] using hp3)
  refine ⟨?_, ?_⟩
  · simp [delegateApplyParse, hab, hshape, hrefine]
  · intro h
    simp [normalizeDelegateApply, h]

/-- C8 witness: a fully valid submission with `delegationId = -1` is
accepted and its `delegationId` is normalized to null. -/
theorem c8_all_valid_accepts_normalized_witness :
    delegateApplyParse [⟨1, "GA", "easy"⟩, ⟨2, "SC", "hard"⟩]
        [⟨1, "CZ"⟩, ⟨2, "US"⟩, ⟨2, "FR"⟩]
        { userId := 7, motivation := "I am motivated", experience := "I am experienced",
          delegationId := some (-1), choice1committee := 1, choice1country := "CZ",
          choice2committee := 2, choice2country := "FR",
          choice3committee := 2, choice3country := "US", shirtSize := some "M" } =
      .ok { userId := 7, motivation := "I am motivated", experience := "I am experienced",
            delegationId := none, choice1committee := 1, choice1country := "CZ",
            choice2committee := 2, choice2country := "FR",
            choice3committee := 2, choice3country := "US", shirtSize := some "M" } := by
  have h := c8_all_valid_accepts_normalized [⟨1, "GA", "easy"⟩, ⟨2, "SC", "hard"⟩]
    [⟨1, "CZ"⟩, ⟨2, "US"⟩, ⟨2, "FR"⟩]
    { userId := 7, motivation := "I am motivated", experience := "I am experienced",
      delegationId := some (-1), choice1committee := 1, choice1country := "CZ",
      choice2committee := 2, choice2country := "FR",
      choice3committee := 2, choice3country := "US", shirtSize := some "M" }
    (by decide) (by decide) (by decide) (by decide) (by decide) (by decide)
    (by decide)
  simpa [normalizeDelegateApply] using h.1

/-- C9: the three committee choices are not checked for mutual
distinctness server-side: when all three choice slots name the same
committee id, that committee exists in the snapshot and each paired
country exists for it, the refinement adds no issues and (for a
shape-valid submission) validation accepts. -/
theorem c9_duplicate_committee_choices_accepted (committees : List Committee)
    (committeeCountries : List CommitteeCountries) (x : DelegateApplyInput)
    (hshape : delegateShapeIssues x = [])
    (h12 : x.choice1committee = x.choice2committee)
    (h13 : x.choice1committee = x.choice3committee)
    (hcom : (committees.find? (fun c => c.id == x.choice1committee)).isSome = true)
    (hp1 : (committeeCountries.find? (fun c =>
      c.committeeId == x.choice1committee && c.country == x.choice1country)).isSome = true)
    (hp2 : (committeeCountries.find? (fun c =>
      c.committeeId == x.choice2committee && c.country == x.choice2country)).isSome = true)
    (hp3 : (committeeCountries.find? (fun c =>
      c.committeeId == x.choice3committee && c.country == x.choice3country)).isSome = true) :
    refineDelegateApply committees committeeCountries (normalizeDelegateApply x) = [] ∧
    delegateApplyParse committees committeeCountries x =
      .ok (normalizeDelegateApply x) := by
  have hc2 : (committees.find? (fun c => c.id == x.choice2committee)).isSome = true := by
    rw [← h12]; exact hcom
  have hc3 : (committees.find? (fun c => c.id == x.choice3committee)).isSome = true := by
    rw [← h13]; exact hcom
  have hrefine := refine_nil_of_all_found committees committeeCountries
    (normalizeDelegateApply x)
    (by simpa [normalizeDelegateApply] using hcom)
    (by simpa [normalizeDelegateApply] using hc2)
    (by simpa [normalizeDelegateApply] using hc3)
    (by simpa [normalizeDelegateApply] using hp1)
    (by simpa [normalizeDelegateApply] using hp2)
    (by simpa [normalizeDelegateApply] using hp3)
  have hab := delegateShape_nil_not_aborted x hshape
  exact ⟨hrefine, by simp [delegateApplyParse, hab, hshape, hrefine]⟩

/-- C9 witness: all three slots choose committee 1 (with a country
valid for it); the refinement adds nothing and the submission is
accepted. -/
theorem c9_duplicate_committee_choices_accepted_witness :
    refineDelegateApply [⟨1, "GA", "easy"⟩] [⟨1, "CZ"⟩, ⟨1, "SK"⟩]
        (normalizeDelegateApply
          { userId := 7, motivation := "I am motivated", experience := "I am experienced",
            delegationId := none, choice1committee := 1, choice1country := "CZ",
            choice2committee := 1, choice2country := "SK",
            choice3committee := 1, choice3country := "CZ", shirtSize := none }) = [] ∧
    delegateApplyParse [⟨1, "GA", "easy"⟩] [⟨1, "CZ"⟩, ⟨1, "SK"⟩]
        { userId := 7, motivation := "I am motivated", experience := "I am experienced",
          delegationId := none, choice1committee := 1, choice1country := "CZ",
          choice2committee := 1, choice2country := "SK",
          choice3committee := 1, choice3country := "CZ", shirtSize := none } =
      .ok (normalizeDelegateApply
        { userId := 7, motivation := "I am motivated", experience := "I am experienced",
          delegationId := none, choice1committee := 1, choice1country := "CZ",
          choice2committee := 1, choice2country := "SK",
          choice3committee := 1, choice3country := "CZ", shirtSize := none }) :=
  c9_duplicate_committee_choices_accepted [⟨1, "GA", "easy"⟩] [⟨1, "CZ"⟩, ⟨1, "SK"⟩]
    { userId := 7, motivation := "I am motivated", experience := "I am experienced",
      delegationId := none, choice1committee := 1, choice1country := "CZ",
      choice2committee := 1, choice2country := "SK",
      choice3committee := 1, choice3country := "CZ", shirtSize := none }
    (by decide) rfl rfl (by decide) (by decide) (by decide) (by decide)

/-! ## C2, C3, C4 (the `validate` middleware) -/

/-- On synchronous schemas the middleware reduces to: collect the error
reports of the supplied parts (body first, then query) and respond 422
when any exist, else continue. -/
theorem validate_sync {β β' γ γ' : Type} (bs : Option (Schema β β'))
    (qs : Option (Schema γ γ')) (req : Request β γ)
    (hb : ∀ s, bs = some s → s.asyncBlocked req.body = false)
    (hq : ∀ s, qs = some s → s.asyncBlocked req.query = false) :
    validate bs qs req =
      (if (partReport bs req.body ++ partReport qs req.query).length != 0 then
        .response 422 ⟨422, "Bad Request",
          partReport bs req.body ++ partReport qs req.query⟩
      else .next req) := by
  cases bs with
  | none =>
    cases qs with
    | none => simp [validate, partReport, bind, Except.bind, pure, Except.pure]
    | some sq =>
      have hq' := hq sq rfl
      cases hp : sq.parse req.query <;>
        simp [validate, partReport, safeParse, hq', hp, bind, Except.bind, pure, Except.pure]
  | some sb =>
    have hb' := hb sb rfl
    cases qs with
    | none =>
      cases hpb : sb.parse req.body <;>
        simp [validate, partReport, safeParse, hb', hpb, bind, Except.bind, pure, Except.pure]
    | some sq =>
      have hq' := hq sq rfl
      cases hpb : sb.parse req.body <;> cases hpq : sq.parse req.query <;>
        simp [validate, partReport, safeParse, hb', hq', hpb, hpq, bind, Except.bind, pure, Except.pure]

/-- C2: when a body schema and/or a query schema is supplied (each
synchronous), the validator parses each supplied part independently,
collects the error reports of both parts, and on any failure responds
422 with statusCode 422, message exactly "Bad Request", and description
the list of one error report per failed part; in particular an invalid
query with a valid body yields a description holding only the query's
report. -/
theorem c2_failure_responds_422 {β β' γ γ' : Type} (bs : Option (Schema β β'))
    (qs : Option (Schema γ γ')) (req : Request β γ)
    (hb : ∀ s, bs = some s → s.asyncBlocked req.body = false)
    (hq : ∀ s, qs = some s → s.asyncBlocked req.query = false) :
    (partReport bs req.body ++ partReport qs req.query ≠ [] →
      validate bs qs req = .response 422
        ⟨422, "Bad Request", partReport bs req.body ++ partReport qs req.query⟩) ∧
    (∀ (sq : Schema γ γ') (e : ZodError),
      partReport bs req.body = [] → qs = some sq → sq.parse req.query = .error e →
      validate bs qs req = .response 422 ⟨422, "Bad Request", [e]⟩) := by
  constructor
  · intro h
    rw [validate_sync bs qs req hb hq]
    obtain ⟨a, t, hl⟩ := List.exists_cons_of_ne_nil h
    rw [hl]
    simp
  · intro sq e hbody hqs hpe
    subst hqs
    rw [validate_sync bs (some sq) req hb hq, hbody]
    simp [partReport, hpe]

/-- A failing query schema used to witness C2: rejects every raw query
with a single custom issue. -/
def failingQuerySchema : Schema (Option Int) (Option Int) :=
  { parse := fun _ => .error [⟨"custom", ["q"], "Invalid input", []⟩]
    asyncBlocked := fun _ => false }

/-- C2 witness: a valid body (the delegationId sub-schema) together
with a failing query yields a 422 whose description holds only the
query's report. -/
theorem c2_failure_responds_422_witness :
    validate (some delegationIdSchema) (some failingQuerySchema)
        ⟨some 5, some 9⟩ =
      .response 422 ⟨422, "Bad Request", [[⟨"custom", ["q"], "Invalid input", []⟩]]⟩ :=
  (c2_failure_responds_422 (some delegationIdSchema) (some failingQuerySchema)
      ⟨some 5, some 9⟩
      (fun s hs => by cases hs; rfl) (fun s hs => by cases hs; rfl)).2
    failingQuerySchema [⟨"custom", ["q"], "Invalid input", []⟩] rfl rfl rfl

/-- C3 counterexample: the middleware does not write the parsed value
back. The delegationId sub-schema coerces a raw body `-1` to null and
the parse succeeds, yet the middleware passes the request on with the
raw body `-1` — the coerced value does not replace the raw body seen
downstream. -/
theorem c3_counterexample :
    validate (some delegationIdSchema) (none : Option (Schema Unit Unit))
        ⟨some (-1), ()⟩ =
      .next ⟨some (-1), ()⟩ ∧
    delegationIdSchema.parse (some (-1)) = .ok none ∧
    some (-1) ≠ (none : Option Int) :=
  ⟨rfl, rfl, by decide⟩

/-- C3 (amended): for every request whose supplied parts all validate
successfully, the validator passes control forward — but with the
request unchanged: the parsed/coerced values are discarded and
downstream handlers see the raw body and raw query. -/
theorem c3_success_continues_with_raw_request {β β' γ γ' : Type}
    (bs : Option (Schema β β')) (qs : Option (Schema γ γ')) (req : Request β γ)
    (hb : ∀ s, bs = some s → s.asyncBlocked req.body = false)
    (hq : ∀ s, qs = some s → s.asyncBlocked req.query = false)
    (hbody : partReport bs req.body = [])
    (hquery : partReport qs req.query = []) :
    validate bs qs req = .next req := by
  rw [validate_sync bs qs req hb hq, hbody, hquery]
  simp

/-- C3 witness: a coercing body schema parses successfully and the
middleware continues with the raw request. -/
theorem c3_success_continues_with_raw_request_witness :
    validate (some delegationIdSchema) (none : Option (Schema Unit Unit))
        ⟨some (-1), ()⟩ =
      .next ⟨some (-1), ()⟩ :=
  c3_success_continues_with_raw_request (some delegationIdSchema) none
    ⟨some (-1), ()⟩ (fun s hs => by cases hs; rfl) (fun s hs => nomatch hs) rfl rfl

/-- C4: the `validate` middleware has no asynchronous mode — its
configuration has no async flag and it always calls zod's synchronous
`safeParse`. On the delegate-application route's schema, whose
refinement is asynchronous, the middleware therefore throws instead of
producing the continue-or-422 outcome, for every snapshot and every
request whose body reaches the refinement (shape parse not aborted) —
contradicting the `async: true` flag its caller passes. -/
theorem c4_async_schema_throws (committees : List Committee)
    (committeeCountries : List CommitteeCountries)
    (req : Request DelegateApplyInput Unit)
    (hreach : delegateShapeAborted req.body = false) :
    validate (some (delegateApplyRouteSchema committees committeeCountries))
        (none : Option (Schema Unit Unit)) req =
      .exception "Async refinement encountered during synchronous parse operation. Use .parseAsync instead." := by
  simp [validate, safeParse, delegateApplyRouteSchema, hreach,
    bind, Except.bind, pure, Except.pure]

/-- C4 witness: a shape-valid delegate application submitted to the
route's schema makes the middleware throw. -/
theorem c4_async_schema_throws_witness :
    validate (some (delegateApplyRouteSchema [⟨1, "GA", "easy"⟩] [⟨1, "CZ"⟩]))
        (none : Option (Schema Unit Unit))
        ⟨{ userId := 7, motivation := "I am motivated", experience := "I am experienced",
           delegationId := none, choice1committee := 1, choice1country := "CZ",
           choice2committee := 1, choice2country := "CZ",
           choice3committee := 1, choice3country := "CZ", shirtSize := none }, ()⟩ =
      .exception "Async refinement encountered during synchronous parse operation. Use .parseAsync instead." :=
  c4_async_schema_throws [⟨1, "GA", "easy"⟩] [⟨1, "CZ"⟩]
    ⟨{ userId := 7, motivation := "I am motivated", experience := "I am experienced",
       delegationId := none, choice1committee := 1, choice1country := "CZ",
       choice2committee := 1, choice2country := "CZ",
       choice3committee := 1, choice3country := "CZ", shirtSize := none }, ()⟩
    rfl

/-! ## C7, C10 (`SignupSchema`) -/

/-- No issue of the Signup shape checks ever sits on the
`passwordConfirm` path (only the cross-field refinement reports there). -/
theorem signupShape_filter_passwordConfirm (iE iM iI : String → Bool)
    (x : SignupInput) :
    (signupShapeIssues iE iM iI x).filter
      (fun i => i.path == ["passwordConfirm"]) = [] := by
  unfold signupShapeIssues phoneIssues
  cases x.dietary <;> cases x.otherInfo <;>
    simp [List.filter_append, filter_ite_single_neg,
      apply_ite (List.filter (fun (i : ZodIssue) => i.path == ["passwordConfirm"]))]

/-- A too-short password always contributes its `too_small` issue to the
shape report. -/
theorem password_issue_mem (iE iM iI : String → Bool) (x : SignupInput)
    (h : x.password.length < 8) :
    (⟨"too_small", ["password"], "Password must be at least 8 characters", []⟩ : ZodIssue) ∈
      signupShapeIssues iE iM iI x := by
  unfold signupShapeIssues
  simp [h]

/-- When the refinement adds nothing and the shape report is nonempty,
the signup parse fails with exactly the shape report. -/
theorem signupParse_error_of_refine_nil (iE iM iI : String → Bool) (now : String)
    (x : SignupInput) (href : signupRefineIssues x = [])
    (hne : signupShapeIssues iE iM iI x ≠ []) :
    signupParse iE iM iI now x = .error (signupShapeIssues iE iM iI x) := by
  unfold signupParse
  by_cases hab : signupShapeAborted x <;>
    simp [hab, href, hne, List.isEmpty_iff]

/-- A string of length zero is the empty string. -/
theorem string_length_eq_zero {s : String} (h : s.length = 0) : s = "" := by
  cases s with
  | mk data =>
    cases data with
    | nil => rfl
    | cons c cs => simp [String.length] at h

/-- C7: a Signup submission with password "abc" (confirmed identically)
is rejected with the 8-character-minimum error on the password field and
no issue on the passwordConfirm path; a submission with password
"longenough1" and passwordConfirm "different1" whose other fields are
all valid is rejected with exactly one error, the custom mismatch issue
on the passwordConfirm path. -/
theorem c7_password_rules (isEmail isMobilePhone isISO31661Alpha2 : String → Bool)
    (now : String) :
    (∀ x : SignupInput, x.password = "abc" → x.passwordConfirm = "abc" →
      (⟨"too_small", ["password"], "Password must be at least 8 characters", []⟩ : ZodIssue) ∈
        parseIssues (signupParse isEmail isMobilePhone isISO31661Alpha2 now x) ∧
      (parseIssues (signupParse isEmail isMobilePhone isISO31661Alpha2 now x)).filter
        (fun i => i.path == ["passwordConfirm"]) = []) ∧
    (∀ x : SignupInput, x.password = "longenough1" → x.passwordConfirm = "different1" →
      isEmail x.email = true → x.firstname ≠ "" → x.lastname ≠ "" →
      phoneCheck isMobilePhone x.phone = true →
      isISO31661Alpha2 x.nationality = true →
      (∀ d, x.dietary = some d → dietaryOptions.contains d = true) →
      (∀ s, x.otherInfo = some s → s.length ≤ 400) →
      signupParse isEmail isMobilePhone isISO31661Alpha2 now x =
        .error [⟨"custom", ["passwordConfirm"], "Passwords do not match", []⟩]) := by
  constructor
  · intro x hp hpc
    have hlen : x.password.length < 8 := by rw [hp]; decide
    have hmem := password_issue_mem isEmail isMobilePhone isISO31661Alpha2 x hlen
    have href : signupRefineIssues x = [] := by
      simp [signupRefineIssues, hp, hpc]
    have hne : signupShapeIssues isEmail isMobilePhone isISO31661Alpha2 x ≠ [] := by
      intro hc
      rw [hc] at hmem
      exact List.not_mem_nil _ hmem
    rw [signupParse_error_of_refine_nil isEmail isMobilePhone isISO31661Alpha2 now x href hne]
    exact ⟨hmem, signupShape_filter_passwordConfirm isEmail isMobilePhone isISO31661Alpha2 x⟩
  · intro x hp hpc hemail hfn hln hphone hnat hdiet hother
    have hplen : ¬(x.password.length < 8) := by rw [hp]; decide
    have hfn' : ¬(x.firstname.length < 1) := by
      simp only [Nat.lt_one_iff]
      exact fun h0 => hfn (string_length_eq_zero h0)
    have hln' : ¬(x.lastname.length < 1) := by
      simp only [Nat.lt_one_iff]
      exact fun h0 => hln (string_length_eq_zero h0)
    have hshape : signupShapeIssues isEmail isMobilePhone isISO31661Alpha2 x = [] := by
      unfold signupShapeIssues phoneIssues
      cases hd : x.dietary with
      | none =>
        cases ho : x.otherInfo with
        | none => simp [hemail, hplen, hfn', hln', hphone, hnat]
        | some s => simp [hemail, hplen, hfn', hln', hphone, hnat,
            Nat.not_lt_of_le (hother s ho)]
      | some d =>
        have hmem : d ∈ dietaryOptions := by simpa using hdiet d hd
        cases ho : x.otherInfo with
        | none => simp [hemail, hplen, hfn', hln', hphone, hnat, hmem]
        | some s => simp [hemail, hplen, hfn', hln', hphone, hnat, hmem,
            Nat.not_lt_of_le (hother s ho)]
    have hab : signupShapeAborted x = false := by
      unfold signupShapeAborted
      cases hd : x.dietary with
      | none => rfl
      | some d =>
        have hmem : d ∈ dietaryOptions := by simpa using hdiet d hd
        simp [hd, hmem]
    have hmismatch : signupRefineIssues x = [⟨"custom", ["passwordConfirm"], "Passwords do not match", []⟩] := by
      simp [signupRefineIssues, hp, hpc]
    unfold signupParse
    simp [hab, hshape, hmismatch]

/-- C7 witness: the two scenarios at concrete inputs (all other fields
valid, with concrete instantiations of the format predicates). -/
theorem c7_password_rules_witness :
    ((⟨"too_small", ["password"], "Password must be at least 8 characters", []⟩ : ZodIssue) ∈
      parseIssues (signupParse (fun s => s == "a@b.com") (fun s => s == "+420777123456")
        (fun s => s == "CZ") "2022-01-01T00:00:00.000Z"
        { email := "a@b.com", password := "abc", passwordConfirm := "abc",
          firstname := "Ada", lastname := "Lovelace", phone := none,
          birthdate := .undef, nationality := "CZ", schoolname := none,
          dietary := none, otherInfo := none }) ∧
     (parseIssues (signupParse (fun s => s == "a@b.com") (fun s => s == "+420777123456")
        (fun s => s == "CZ") "2022-01-01T00:00:00.000Z"
        { email := "a@b.com", password := "abc", passwordConfirm := "abc",
          firstname := "Ada", lastname := "Lovelace", phone := none,
          birthdate := .undef, nationality := "CZ", schoolname := none,
          dietary := none, otherInfo := none })).filter
        (fun i => i.path == ["passwordConfirm"]) = []) ∧
    signupParse (fun s => s == "a@b.com") (fun s => s == "+420777123456")
        (fun s => s == "CZ") "2022-01-01T00:00:00.000Z"
        { email := "a@b.com", password := "longenough1", passwordConfirm := "different1",
          firstname := "Ada", lastname := "Lovelace", phone := none,
          birthdate := .undef, nationality := "CZ", schoolname := none,
          dietary := none, otherInfo := none } =
      .error [⟨"custom", ["passwordConfirm"], "Passwords do not match", []⟩] :=
  ⟨(c7_password_rules (fun s => s == "a@b.com") (fun s => s == "+420777123456")
      (fun s => s == "CZ") "2022-01-01T00:00:00.000Z").1
    { email := "a@b.com", password := "abc", passwordConfirm := "abc",
      firstname := "Ada", lastname := "Lovelace", phone := none,
      birthdate := .undef, nationality := "CZ", schoolname := none,
      dietary := none, otherInfo := none } rfl rfl,
   (c7_password_rules (fun s => s == "a@b.com") (fun s => s == "+420777123456")
      (fun s => s == "CZ") "2022-01-01T00:00:00.000Z").2
    { email := "a@b.com", password := "longenough1", passwordConfirm := "different1",
      firstname := "Ada", lastname := "Lovelace", phone := none,
      birthdate := .undef, nationality := "CZ", schoolname := none,
      dietary := none, otherInfo := none } rfl rfl (by decide) (by decide) (by decide)
    rfl (by decide) (fun d h => nomatch h) (fun s h => nomatch h)⟩

/-- C10: a Signup input whose phone is the empty string is not rejected
by the mobile-phone format check — the check is skipped for every falsy
phone value (empty string or null), whatever the format predicate — the
whole parse result is identical to the one for a null phone, and any
accepted value has phone normalized to null. -/
theorem c10_empty_phone_skipped_normalized
    (isEmail isMobilePhone isISO31661Alpha2 : String → Bool) (now : String)
    (x : SignupInput) (hp : x.phone = some "") :
    phoneCheck isMobilePhone (some "") = true ∧
    phoneCheck isMobilePhone none = true ∧
    signupParse isEmail isMobilePhone isISO31661Alpha2 now x =
      signupParse isEmail isMobilePhone isISO31661Alpha2 now { x with phone := none } ∧
    (∀ v, signupParse isEmail isMobilePhone isISO31661Alpha2 now x = .ok v →
      v.phone = none) := by
  refine ⟨rfl, rfl, ?_, ?_⟩
  · simp [signupParse, signupShapeIssues, phoneIssues, phoneCheck,
      signupShapeAborted, signupRefineIssues, normalizeSignup, normalizePhone, hp]
  · intro v hv
    unfold signupParse at hv
    split at hv
    · exact absurd hv (by simp)
    · dsimp only at hv
      split at hv
      · injection hv with h
        subst h
        simp [normalizeSignup, normalizePhone, hp]
      · exact absurd hv (by simp)

/-- C10 witness: a concrete signup with phone `""` parses identically
to the same signup with phone null, and its accepted value has phone
null. -/
theorem c10_empty_phone_skipped_normalized_witness :
    phoneCheck (fun s => s == "+420777123456") (some "") = true ∧
    phoneCheck (fun s => s == "+420777123456") none = true ∧
    signupParse (fun s => s == "a@b.com") (fun s => s == "+420777123456")
        (fun s => s == "CZ") "2022-01-01T00:00:00.000Z"
        { email := "a@b.com", password := "longenough1", passwordConfirm := "longenough1",
          firstname := "Ada", lastname := "Lovelace", phone := some "",
          birthdate := .undef, nationality := "CZ", schoolname := none,
          dietary := none, otherInfo := none } =
      signupParse (fun s => s == "a@b.com") (fun s => s == "+420777123456")
        (fun s => s == "CZ") "2022-01-01T00:00:00.000Z"
        { email := "a@b.com", password := "longenough1", passwordConfirm := "longenough1",
          firstname := "Ada", lastname := "Lovelace", phone := none,
          birthdate := .undef, nationality := "CZ", schoolname := none,
          dietary := none, otherInfo := none } ∧
    (∀ v, signupParse (fun s => s == "a@b.com") (fun s => s == "+420777123456")
        (fun s => s == "CZ") "2022-01-01T00:00:00.000Z"
        { email := "a@b.com", password := "longenough1", passwordConfirm := "longenough1",
          firstname := "Ada", lastname := "Lovelace", phone := some "",
          birthdate := .undef, nationality := "CZ", schoolname := none,
          dietary := none, otherInfo := none } = .ok v → v.phone = none) := by
  simpa using c10_empty_phone_skipped_normalized (fun s => s == "a@b.com")
    (fun s => s == "+420777123456") (fun s => s == "CZ") "2022-01-01T00:00:00.000Z"
    { email := "a@b.com", password := "longenough1", passwordConfirm := "longenough1",
      firstname := "Ada", lastname := "Lovelace", phone := some "",
      birthdate := .undef, nationality := "CZ", schoolname := none,
      dietary := none, otherInfo := none } rfl

end Plismun
